import Mathlib

/-!
Shallow embedding of the response-materialization layer of the
`Kaiser925/gorequests` repository (package `requests4go`).

Two variants of the code exist in the repository:

* `response.go` (embedded below with the `v1` prefix): `Response` embeds
  `*http.Response` and caches the decoded body in a `content []byte` field
  (`nil` = not yet loaded).
* the `part_000` variant (embedded with the `v0` prefix): `Response` holds
  explicit `StatusCode`, `Header`, a `content *bytes.Buffer` cache and an
  `internalError` field.

Bytes are modelled as `Nat`, the raw HTTP body as a `Body` holding the bytes
still unread, an optional read error and a closed-flag.  The gzip and zlib
decompressors and the JSON parser are abstract parameters collected in a
`Codec`; a `DecodeResult.setupFail` models `gzip.NewReader`/`zlib.NewReader`
returning an error, `DecodeResult.readFail` a failure while draining the
constructed decompressing reader.  A Go panic (in particular the nil-pointer
dereference caused by the deferred `reader.Close()` when the decompressor
constructor failed) is an explicit `Outcome.panicked` result.
-/

/-- Error values that flow through the embedded code. `eofMark` stands for
`io.EOF`, which Go reports as an error value from `Read`. -/
inductive Err where
  | readFail
  | readClosed
  | eofMark
  | parse
  | create
  | write
  | transport
deriving DecidableEq, Repr

/-- Result of a Go call: a value, an error, or a runtime panic. -/
inductive Outcome (α : Type) where
  | ok (a : α)
  | err (e : Err)
  | panicked
deriving DecidableEq, Repr

/-- Result of constructing a decompressing reader over raw bytes and reading
it to exhaustion: `setupFail` = `gzip.NewReader`/`zlib.NewReader` returned an
error, `readFail` = the subsequent drain failed, `ok` = the decoded bytes. -/
inductive DecodeResult where
  | setupFail
  | readFail (e : Err)
  | ok (bs : List Nat)
deriving DecidableEq, Repr

/-- Abstract decompressors and JSON-validity oracle; parameters of the model
(the repository calls into `compress/gzip`, `compress/zlib`,
`encoding/json` / `go-simplejson`). -/
structure Codec where
  gzip : List Nat → DecodeResult
  zlib : List Nat → DecodeResult
  isJson : List Nat → Bool

/-- The raw HTTP body stream: bytes not yet consumed, an optional error the
stream yields instead of a normal end-of-stream, and whether `Close` has been
called on it.  Reading a closed `http.Response.Body` fails in Go. -/
structure Body where
  data : List Nat
  readErr : Option Err
  closed : Bool
deriving DecidableEq, Repr

/-- `ioutil.ReadAll` over the body: everything is consumed in one
materialization pass.  Reading a closed body errors; a stream error is
surfaced instead of the data. -/
def Body.readAll (b : Body) : Except Err (List Nat) × Body :=
  if b.closed then (.error .readClosed, b)
  else
    match b.readErr with
    | some e => (.error e, { b with data := [] })
    | none => (.ok b.data, { b with data := [] })

/-- A single `Read(p)` call on the body with buffer size `bufSize`:
returns the number of bytes read (`0` with `eofMark` at end-of-stream,
matching `io.EOF`). -/
def Body.read1 (bufSize : Nat) (b : Body) : (Nat × Option Err) × Body :=
  if b.closed then ((0, some .readClosed), b)
  else if b.data.isEmpty then
    match b.readErr with
    | some e => ((0, some e), b)
    | none => ((0, some .eofMark), b)
  else ((min bufSize b.data.length, none), { b with data := b.data.drop bufSize })

/-- ASCII case-folding of a character to its lowercase code point (MIME
header names are ASCII; Go canonicalizes them with exactly this folding). -/
def charLower (ch : Char) : Nat :=
  if 65 ≤ ch.toNat ∧ ch.toNat ≤ 90 then ch.toNat + 32 else ch.toNat

/-- ASCII case-insensitive string comparison. -/
def strCaseEq (a b : String) : Bool :=
  decide (a.data.map charLower = b.data.map charLower)

/-- `http.Header.Get`: the header-name lookup is case-insensitive (Go
canonicalizes the MIME header key); the first matching value is returned
unchanged, `""` when absent. -/
def headerGet (hs : List (String × String)) (k : String) : String :=
  match hs.find? (fun p => strCaseEq p.1 k) with
  | some p => p.2
  | none => ""

/-! ## The `response.go` variant (`v1`) -/

/-- State of a `response.go` `Response`: embedded status and header, the raw
body, the `content []byte` cache (`none` = Go `nil`), and a count of
materialization passes that touched the raw stream (for the single-read
properties; not a field of the Go struct). -/
structure V1State where
  statusCode : Nat
  header : List (String × String)
  body : Body
  content : Option (List Nat)
  reads : Nat
deriving DecidableEq, Repr

/-- `Response.Ok` of `response.go`:
`r.StatusCode < 400 && r.StatusCode >= 200`. -/
def v1Ok (s : V1State) : Bool :=
  decide (s.statusCode < 400) && decide (s.statusCode ≥ 200)

/-- `Response.loadContent` of `response.go`.

```go
if r.content != nil { return r.content, nil }
var reader io.ReadCloser
defer func() { reader.Close() }()
switch r.Header.Get("Content-Encoding") {
case "gzip":    if reader, err = gzip.NewReader(r.Body); err != nil { return nil, err }
case "deflate": if reader, err = zlib.NewReader(r.Body); err != nil { return nil, err }
default:        reader = r.Body
}
content, err := ioutil.ReadAll(reader)
if err != nil && err != io.EOF { return nil, err }
r.content = content
return content, nil
```

When `gzip.NewReader`/`zlib.NewReader` fails, the early `return nil, err`
fires the deferred `reader.Close()` with `reader` a nil `*gzip.Reader`
(resp. a nil `io.ReadCloser` interface): a nil dereference, i.e. a panic —
modelled as `Outcome.panicked`.  On the gzip/deflate success and read-failure
paths only the decompressing reader is closed (the raw body stays open); on
the identity paths `reader` is `r.Body`, so the body itself is closed. -/
def v1LoadContent (c : Codec) (s : V1State) : Outcome (List Nat) × V1State :=
  match s.content with
  | some cached => (.ok cached, s)
  | none =>
    if headerGet s.header "Content-Encoding" = "gzip" then
      match s.body.readAll with
      | (.error _, b1) => (.panicked, { s with body := b1, reads := s.reads + 1 })
      | (.ok raw, b1) =>
        match c.gzip raw with
        | .setupFail => (.panicked, { s with body := b1, reads := s.reads + 1 })
        | .readFail e => (.err e, { s with body := b1, reads := s.reads + 1 })
        | .ok bs =>
          (.ok bs, { s with body := b1, content := some bs, reads := s.reads + 1 })
    else if headerGet s.header "Content-Encoding" = "deflate" then
      match s.body.readAll with
      | (.error _, b1) => (.panicked, { s with body := b1, reads := s.reads + 1 })
      | (.ok raw, b1) =>
        match c.zlib raw with
        | .setupFail => (.panicked, { s with body := b1, reads := s.reads + 1 })
        | .readFail e => (.err e, { s with body := b1, reads := s.reads + 1 })
        | .ok bs =>
          (.ok bs, { s with body := b1, content := some bs, reads := s.reads + 1 })
    else
      match s.body.readAll with
      | (.error e, b1) =>
        (.err e, { s with body := { b1 with closed := true }, reads := s.reads + 1 })
      | (.ok raw, b1) =>
        (.ok raw, { s with body := { b1 with closed := true }, content := some raw,
                           reads := s.reads + 1 })

/-- `Response.Content` of `response.go`: `loadContent`, then
`return content, nil`.  The success value is wrapped in `some` because
`ioutil.ReadAll` returns a non-nil slice even for an empty stream, so the
cached `content` handed back here is never Go `nil` on success; the error
path returns `nil, err`. -/
def v1Content (c : Codec) (s : V1State) : Outcome (Option (List Nat)) × V1State :=
  match v1LoadContent c s with
  | (.ok bs, s1) => (.ok (some bs), s1)
  | (.err e, s1) => (.err e, s1)
  | (.panicked, s1) => (.panicked, s1)

/-- `Response.Text` of `response.go`: `loadContent` and a byte-for-byte
string view of the content (kept as bytes here). -/
def v1Text (c : Codec) (s : V1State) : Outcome (List Nat) × V1State :=
  v1LoadContent c s

/-- `Response.SimpleJSON` of `response.go`: `loadContent` (errors wrapped as
`"Json error: %w"`), then `simplejson.NewJson(content)`; a parse failure is
the distinct `Err.parse`. -/
def v1SimpleJSON (c : Codec) (s : V1State) : Outcome Unit × V1State :=
  match v1LoadContent c s with
  | (.ok bs, s1) => if c.isJson bs then (.ok (), s1) else (.err .parse, s1)
  | (.err e, s1) => (.err e, s1)
  | (.panicked, s1) => (.panicked, s1)

/-- `Response.Read` of `response.go`:

```go
content, err := r.loadContent()
if err != nil { return 0, err }
return bytes.NewReader(content).Read(p)
```

Every call builds a **fresh** `bytes.Reader` over the full cached content, so
every call reads from offset 0.  The result is `(bytes read, end-of-stream?)`:
a nonempty content yields `(min bufSize len, false)` with a nil error, an
empty content yields `(0, true)` (`io.EOF`). -/
def v1Read (c : Codec) (bufSize : Nat) (s : V1State) : Outcome (Nat × Bool) × V1State :=
  match v1LoadContent c s with
  | (.ok bs, s1) =>
    if bs.isEmpty then (.ok (0, true), s1)
    else (.ok (min bufSize bs.length, false), s1)
  | (.err e, s1) => (.err e, s1)
  | (.panicked, s1) => (.panicked, s1)

/-- The `io.Copy(ioutil.Discard, r)` loop inside `Response.Close` of
`response.go`, fuel-bounded: each iteration calls `r.Read` with io.Copy's
32768-byte buffer and stops on end-of-stream or error; `none` means the fuel
ran out before the loop terminated. -/
def v1Drain (c : Codec) : Nat → V1State → Option (Outcome Unit × V1State)
  | 0, _ => none
  | fuel + 1, s =>
    match v1Read c 32768 s with
    | (.ok (_, true), s1) => some (.ok (), s1)
    | (.ok (_, false), s1) => v1Drain c fuel s1
    | (.err e, s1) => some (.err e, s1)
    | (.panicked, s1) => some (.panicked, s1)

/-- `Response.Close` of `response.go`: run the drain loop, propagate its
error, then `r.Body.Close()`.  Fuel-bounded like `v1Drain`. -/
def v1Close (c : Codec) (fuel : Nat) (s : V1State) : Option (Outcome Unit × V1State) :=
  match v1Drain c fuel s with
  | none => none
  | some (.ok _, s1) => some (.ok (), { s1 with body := { s1.body with closed := true } })
  | some (.err e, s1) => some (.err e, s1)
  | some (.panicked, s1) => some (.panicked, s1)

/-- `Response.SaveContent` of `response.go`: `os.Create`, `loadContent`,
`f.Write(content)`.  The third component is the destination file's bytes
(`none` when the file was not created; the file is created empty before the
load, and left partial — modelled as empty — on a write failure). -/
def v1SaveContent (c : Codec) (createOk writeOk : Bool) (s : V1State) :
    Outcome Unit × V1State × Option (List Nat) :=
  if createOk then
    match v1LoadContent c s with
    | (.ok bs, s1) =>
      if writeOk then (.ok (), s1, some bs) else (.err .write, s1, some [])
    | (.err e, s1) => (.err e, s1, some [])
    | (.panicked, s1) => (.panicked, s1, some [])
  else (.err .create, s, none)

/-! ## The `part_000` variant (`v0`) -/

/-- State of a `part_000` `Response`: explicit `StatusCode` and `Header`
copies, the raw response's `ContentLength` (`-1` = unknown), the raw body,
the `content *bytes.Buffer` cache (a byte list; `Len() == 0` plays the role
of "not loaded"), and the `internalError` field.  `reads` counts stream read
attempts (not a Go field). -/
structure V0State where
  statusCode : Nat
  header : List (String × String)
  contentLength : Int
  body : Body
  content : List Nat
  internalError : Option Err
  reads : Nat
deriving DecidableEq, Repr

/-- `NewResponse(rawResp, err)` of `part_000` when `err != nil`: returns
`&Response{internalError: err}` — every other field stays at its zero value
(`StatusCode` 0, nil header, zero `ContentLength`, empty buffer). -/
def v0NewResponseErr (e : Err) : V0State :=
  { statusCode := 0, header := [], contentLength := 0,
    body := { data := [], readErr := none, closed := false },
    content := [], internalError := some e, reads := 0 }

/-- `NewResponse(rawResp, nil)` of `part_000`: copies status, header and
wraps the body; `content` starts as an empty buffer, `internalError` nil. -/
def v0NewResponseOk (statusCode : Nat) (header : List (String × String))
    (contentLength : Int) (body : Body) : V0State :=
  { statusCode := statusCode, header := header, contentLength := contentLength,
    body := body, content := [], internalError := none, reads := 0 }

/-- `Response.Ok` of `part_000`: `false` whenever `internalError` is set,
else `r.StatusCode < 400 && r.StatusCode >= 200`. -/
def v0Ok (s : V0State) : Bool :=
  match s.internalError with
  | some _ => false
  | none => decide (s.statusCode < 400) && decide (s.statusCode ≥ 200)

/-- `Response.Read` of `part_000`: `(-1, internalError)` when the internal
error is set, otherwise a pass-through to `RawResponse.Body.Read`. -/
def v0Read (bufSize : Nat) (s : V0State) : (Int × Option Err) × V0State :=
  match s.internalError with
  | some e => ((-1, some e), s)
  | none =>
    match s.body.read1 bufSize with
    | ((n, e), b1) => ((Int.ofNat n, e), { s with body := b1, reads := s.reads + 1 })

/-- `Response.Close` of `part_000`: returns `internalError` when set;
otherwise `io.Copy(ioutil.Discard, r)` drains the raw body (errors ignored)
and `RawResponse.Body.Close()` closes it (idempotent, returns nil). -/
def v0Close (s : V0State) : Option Err × V0State :=
  match s.internalError with
  | some e => (some e, s)
  | none =>
    (none, { s with body := { s.body with data := [], closed := true },
                    reads := s.reads + 1 })

/-- `Response.loadContent` of `part_000`.

```go
if r.internalError != nil { return r.internalError }
if r.content.Len() != 0 || r.RawResponse.ContentLength == 0 { return nil }
if r.RawResponse.ContentLength > 0 { r.content.Grow(...) }
var reader io.ReadCloser
defer func() { r.Close(); reader.Close() }()
switch r.Header.Get("Content-Encoding") {
case "gzip":    if reader, err = gzip.NewReader(r); err != nil { return err }
case "deflate": if reader, err = zlib.NewReader(r); err != nil { return err }
default:        reader = r
}
if _, err := io.Copy(r.content, reader); err != nil && err != io.EOF { return err }
return nil
```

The deferred closure always runs `r.Close()` (drain + close the raw body)
and then `reader.Close()`; when the decompressor constructor failed,
`reader` is nil and that call panics (`Outcome.panicked`).  Note the guard:
an **empty** loaded content is indistinguishable from "not loaded", so with
`ContentLength ≠ 0` an empty decoded body is re-attempted by every call.
No failure is ever recorded into `internalError` here. -/
def v0LoadContent (c : Codec) (s : V0State) : Outcome Unit × V0State :=
  match s.internalError with
  | some e => (.err e, s)
  | none =>
    if s.content.length ≠ 0 ∨ s.contentLength = 0 then (.ok (), s)
    else
      if headerGet s.header "Content-Encoding" = "gzip" then
        match s.body.readAll with
        | (.error _, b1) =>
          (.panicked, { s with body := { b1 with data := [], closed := true },
                               reads := s.reads + 1 })
        | (.ok raw, b1) =>
          match c.gzip raw with
          | .setupFail =>
            (.panicked, { s with body := { b1 with data := [], closed := true },
                                 reads := s.reads + 1 })
          | .readFail e =>
            (.err e, { s with body := { b1 with data := [], closed := true },
                              reads := s.reads + 1 })
          | .ok bs =>
            (.ok (), { s with content := bs,
                              body := { b1 with data := [], closed := true },
                              reads := s.reads + 1 })
      else if headerGet s.header "Content-Encoding" = "deflate" then
        match s.body.readAll with
        | (.error _, b1) =>
          (.panicked, { s with body := { b1 with data := [], closed := true },
                               reads := s.reads + 1 })
        | (.ok raw, b1) =>
          match c.zlib raw with
          | .setupFail =>
            (.panicked, { s with body := { b1 with data := [], closed := true },
                                 reads := s.reads + 1 })
          | .readFail e =>
            (.err e, { s with body := { b1 with data := [], closed := true },
                              reads := s.reads + 1 })
          | .ok bs =>
            (.ok (), { s with content := bs,
                              body := { b1 with data := [], closed := true },
                              reads := s.reads + 1 })
      else
        match s.body.readAll with
        | (.error e, b1) =>
          (.err e, { s with body := { b1 with closed := true }, reads := s.reads + 1 })
        | (.ok raw, b1) =>
          (.ok (), { s with content := raw, body := { b1 with closed := true },
                            reads := s.reads + 1 })

/-- `Response.Text` of `part_000`: `loadContent`, then `r.content.String()`
(kept as bytes). -/
def v0Text (c : Codec) (s : V0State) : Outcome (List Nat) × V0State :=
  match v0LoadContent c s with
  | (.ok _, s1) => (.ok s1.content, s1)
  | (.err e, s1) => (.err e, s1)
  | (.panicked, s1) => (.panicked, s1)

/-- `Response.Content` of `part_000`: `loadContent`, then
`if r.content.Len() == 0 { return nil, nil }` — an empty content is handed
back as a Go nil slice with a nil error (`.ok none`); otherwise
`r.content.Bytes()` (`.ok (some bytes)`). -/
def v0Content (c : Codec) (s : V0State) : Outcome (Option (List Nat)) × V0State :=
  match v0LoadContent c s with
  | (.ok _, s1) =>
    if s1.content.length = 0 then (.ok none, s1) else (.ok (some s1.content), s1)
  | (.err e, s1) => (.err e, s1)
  | (.panicked, s1) => (.panicked, s1)

/-- `Response.Json` of `part_000`: returns `internalError` when set; calls
`Content()`; a `Content` failure is **recorded** into `internalError` and
returned wrapped (`"Json error: %w"`); otherwise `simplejson.NewJson(cnt)`
whose parse failure is the distinct `Err.parse` and is *not* recorded. -/
def v0Json (c : Codec) (s : V0State) : Outcome Unit × V0State :=
  match s.internalError with
  | some e => (.err e, s)
  | none =>
    match v0Content c s with
    | (.ok cnt, s1) =>
      if c.isJson (cnt.getD []) then (.ok (), s1) else (.err .parse, s1)
    | (.err e, s1) => (.err e, { s1 with internalError := some e })
    | (.panicked, s1) => (.panicked, s1)

/-- `Response.SaveContent` of `part_000`: returns `internalError` when set;
`os.Create`; then `io.Copy(f, r.getContent())` where `getContent` is the
**live raw stream** when the cache is empty (no decode!) and the cache
buffer otherwise (whose bytes the copy drains: `r.content` is empty
afterwards); the deferred `r.Close()` drains and closes the raw body.  The
third component is the destination file's bytes. -/
def v0SaveContent (createOk : Bool) (s : V0State) :
    Outcome Unit × V0State × Option (List Nat) :=
  match s.internalError with
  | some e => (.err e, s, none)
  | none =>
    if createOk then
      if s.content.length = 0 then
        match s.body.readAll with
        | (.error e, b1) =>
          (.err e, { s with body := { b1 with data := [], closed := true },
                            reads := s.reads + 1 }, some [])
        | (.ok raw, b1) =>
          (.ok (), { s with body := { b1 with data := [], closed := true },
                            reads := s.reads + 1 }, some raw)
      else
        (.ok (), { s with content := [],
                          body := { s.body with data := [], closed := true },
                          reads := s.reads + 1 }, some s.content)
    else (.err .create, s, none)

/-! ## Concrete fixtures -/

/-- A codec whose decompressor constructors always fail (a body that is not a
valid gzip/zlib stream) and that accepts nothing as JSON. -/
def strictCodec : Codec :=
  { gzip := fun _ => .setupFail, zlib := fun _ => .setupFail, isJson := fun _ => false }

/-- An open, error-free body holding the bytes `bs`. -/
def mkBody (bs : List Nat) : Body := { data := bs, readErr := none, closed := false }

/-- A fresh `response.go` response: nil content cache, no reads yet. -/
def mkV1 (statusCode : Nat) (header : List (String × String)) (bs : List Nat) : V1State :=
  { statusCode := statusCode, header := header, body := mkBody bs,
    content := none, reads := 0 }

/-! ## Helper lemmas -/

/-- A populated `content` cache makes `loadContent` (`response.go`) a pure
cache hit: same bytes, state untouched, no stream read. -/
theorem v1LoadContent_of_cached (c : Codec) (s : V1State) (bs : List Nat)
    (h : s.content = some bs) : v1LoadContent c s = (.ok bs, s) := by
  unfold v1LoadContent
  rw [h]

/-- A successful `loadContent` (`response.go`) leaves the decoded bytes in
the `content` cache. -/
theorem v1LoadContent_ok_content (c : Codec) (s : V1State) (bs : List Nat) (s1 : V1State)
    (h : v1LoadContent c s = (.ok bs, s1)) : s1.content = some bs := by
  unfold v1LoadContent at h
  split at h
  · rename_i cached hc
    obtain ⟨h1, h2⟩ := Prod.mk.injEq .. ▸ h
    cases h1
    exact h2 ▸ hc
  · split at h
    · split at h
      · exact absurd h (by simp)
      · split at h
        · exact absurd h (by simp)
        · exact absurd h (by simp)
        · obtain ⟨h1, h2⟩ := Prod.mk.injEq .. ▸ h
          cases h1
          exact h2 ▸ rfl
    · split at h
      · split at h
        · exact absurd h (by simp)
        · split at h
          · exact absurd h (by simp)
          · exact absurd h (by simp)
          · obtain ⟨h1, h2⟩ := Prod.mk.injEq .. ▸ h
            cases h1
            exact h2 ▸ rfl
      · split at h
        · exact absurd h (by simp)
        · obtain ⟨h1, h2⟩ := Prod.mk.injEq .. ▸ h
          cases h1
          exact h2 ▸ rfl

/-- Once a `response.go` `loadContent` has succeeded, running it again
returns the identical bytes and changes nothing. -/
theorem v1LoadContent_idem (c : Codec) (s : V1State) (bs : List Nat) (s1 : V1State)
    (h : v1LoadContent c s = (.ok bs, s1)) : v1LoadContent c s1 = (.ok bs, s1) :=
  v1LoadContent_of_cached c s1 bs (v1LoadContent_ok_content c s bs s1 h)

/-- `loadContent` of `part_000` never writes `internalError`. -/
theorem v0LoadContent_internalError (c : Codec) (s : V0State) :
    ((v0LoadContent c s).2).internalError = s.internalError := by
  unfold v0LoadContent
  repeat (first | rfl | split)

/-- A nonempty `content` buffer makes `loadContent` (`part_000`) a no-op. -/
theorem v0LoadContent_of_cached (c : Codec) (s : V0State)
    (hie : s.internalError = none) (hc : s.content.length ≠ 0) :
    v0LoadContent c s = (.ok (), s) := by
  unfold v0LoadContent
  rw [hie]
  simp [hc]

/-- `ContentLength == 0` makes `loadContent` (`part_000`) a no-op: the
stream is never touched. -/
theorem v0LoadContent_of_zeroCL (c : Codec) (s : V0State)
    (hie : s.internalError = none) (hcl : s.contentLength = 0) :
    v0LoadContent c s = (.ok (), s) := by
  unfold v0LoadContent
  rw [hie]
  simp [hcl]

/-- Characterization of a successful nonempty `Content()` of `part_000`:
the bytes are the (nonempty) cache of the final state and `internalError`
is untouched. -/
theorem v0Content_ok_some (c : Codec) (s : V0State) (bs : List Nat) (s1 : V0State)
    (h : v0Content c s = (.ok (some bs), s1)) :
    s1.content = bs ∧ s1.content.length ≠ 0 ∧ s1.internalError = s.internalError := by
  have hie := v0LoadContent_internalError c s
  unfold v0Content at h
  split at h
  · rename_i bs2 s2 hl
    split at h
    · exact absurd h (by simp)
    · rename_i hlen
      obtain ⟨h1, h2⟩ := Prod.mk.injEq .. ▸ h
      obtain rfl : s2.content = bs := by cases h1; rfl
      cases h2
      refine ⟨rfl, hlen, ?_⟩
      rw [hl] at hie
      exact hie
  · exact absurd h (by simp)
  · exact absurd h (by simp)

/-- A cached nonempty `Content()` of `part_000` is served from the buffer
with no state change. -/
theorem v0Content_of_cached (c : Codec) (s : V0State)
    (hie : s.internalError = none) (hc : s.content.length ≠ 0) :
    v0Content c s = (.ok (some s.content), s) := by
  unfold v0Content
  rw [v0LoadContent_of_cached c s hie hc]
  simp [hc]

/-! ## Claims -/

/-- The `part_000` response used for the C1 counterexample: a body that
decodes to zero bytes while `ContentLength` is `-1` (unknown). -/
def c1CexState : V0State := v0NewResponseOk 200 [] (-1) (mkBody [])

/-- C1 counterexample: in the `part_000` variant an empty decoded body is
never cached (`content.Len() != 0` is the guard), so with
`ContentLength ≠ 0` the first `Text()` succeeds with empty bytes, while the
second `Text()` re-attempts a stream read on the now-closed body and fails —
the two calls do not return identical bytes and the stream is touched
twice. -/
theorem c1_counterexample :
    (v0Text strictCodec c1CexState).1 = .ok [] ∧
    (v0Text strictCodec c1CexState).2.reads = 1 ∧
    (v0Text strictCodec ((v0Text strictCodec c1CexState).2)).1 = .err .readClosed ∧
    (v0Text strictCodec ((v0Text strictCodec c1CexState).2)).2.reads = 2 := by
  decide

/-- C1 (amended): in `response.go`, a cache hit returns the cached bytes with
no state change, and any successful `loadContent` leaves a state from which
every further `loadContent` returns the identical bytes and changes nothing
(so the decoded cache is populated by at most one materialization, including
for an empty decoded body).  In `part_000` the accessors are cache-served
only when the content buffer is nonempty, and the stream is never touched
when `ContentLength == 0`. -/
theorem c1_amended :
    (∀ (c : Codec) (s : V1State) (bs : List Nat),
        s.content = some bs → v1LoadContent c s = (.ok bs, s)) ∧
    (∀ (c : Codec) (s : V1State) (bs : List Nat) (s1 : V1State),
        v1LoadContent c s = (.ok bs, s1) → v1LoadContent c s1 = (.ok bs, s1)) ∧
    (∀ (c : Codec) (s : V0State),
        s.internalError = none → s.content.length ≠ 0 → v0LoadContent c s = (.ok (), s)) ∧
    (∀ (c : Codec) (s : V0State),
        s.internalError = none → s.contentLength = 0 → v0LoadContent c s = (.ok (), s)) :=
  ⟨v1LoadContent_of_cached, v1LoadContent_idem,
   v0LoadContent_of_cached, v0LoadContent_of_zeroCL⟩

/-- C1 witness: concrete instances for every hypothesis of `c1_amended`. -/
theorem c1_witness :
    v1LoadContent strictCodec { mkV1 200 [] [] with content := some [7] } =
      (.ok [7], { mkV1 200 [] [] with content := some [7] }) ∧
    v1LoadContent strictCodec
        { mkV1 200 [] [] with body := { data := [], readErr := none, closed := true },
                              content := some [7], reads := 1 } =
      (.ok [7], { mkV1 200 [] [] with
                    body := { data := [], readErr := none, closed := true },
                    content := some [7], reads := 1 }) ∧
    v0LoadContent strictCodec { v0NewResponseOk 200 [] 2 (mkBody []) with content := [7] } =
      (.ok (), { v0NewResponseOk 200 [] 2 (mkBody []) with content := [7] }) ∧
    v0LoadContent strictCodec (v0NewResponseOk 200 [] 0 (mkBody [])) =
      (.ok (), v0NewResponseOk 200 [] 0 (mkBody [])) := by
  refine ⟨c1_amended.1 strictCodec _ [7] rfl, ?_, ?_, ?_⟩
  · exact c1_amended.2.1 strictCodec (mkV1 200 [] [7]) [7] _ (by decide)
  · exact c1_amended.2.2.1 strictCodec _ rfl (by decide)
  · exact c1_amended.2.2.2 strictCodec _ rfl rfl

/-- The `response.go` response used for the C2 counterexample: an identity
body whose read fails. -/
def c2CexState : V1State :=
  { mkV1 200 [] [] with body := { data := [], readErr := some .readFail, closed := false } }

/-- C2 counterexample: in `response.go` a failed materialization records
nothing — the second `Content()` call re-attempts I/O on the (now closed)
stream and returns a *different* error, instead of returning a recorded
terminal error without I/O. -/
theorem c2_counterexample :
    (v1Content strictCodec c2CexState).1 = .err .readFail ∧
    (v1Content strictCodec c2CexState).2.reads = 1 ∧
    (v1Content strictCodec ((v1Content strictCodec c2CexState).2)).1 = .err .readClosed ∧
    (v1Content strictCodec ((v1Content strictCodec c2CexState).2)).2.reads = 2 := by
  decide

/-- C2 (amended): the only recorded terminal error is `part_000`'s
`internalError` (set at construction, or by `Json()` when its `Content()`
call fails): once set, every content-accessing call — `Text`, `Content`,
`Json`, `SaveContent`, and also `Read` and `Close` — returns it unchanged
with no further I/O and no state change.  Failures inside `loadContent`
itself are not recorded in either variant (see the counterexample). -/
theorem c2_amended :
    (∀ (e : Err) (c : Codec) (n : Nat) (ck : Bool) (s : V0State), s.internalError = some e →
        v0Text c s = (.err e, s) ∧ v0Content c s = (.err e, s) ∧
        v0Json c s = (.err e, s) ∧ v0SaveContent ck s = (.err e, s, none) ∧
        v0Read n s = ((-1, some e), s) ∧ v0Close s = (some e, s)) ∧
    (∀ (c : Codec) (s : V0State) (e : Err) (s1 : V0State), s.internalError = none →
        v0Content c s = (.err e, s1) →
        v0Json c s = (.err e, { s1 with internalError := some e })) := by
  constructor
  · intro e c n ck s h
    refine ⟨?_, ?_, ?_, ?_, ?_, ?_⟩
    · unfold v0Text v0LoadContent; rw [h]
    · unfold v0Content v0LoadContent; rw [h]
    · unfold v0Json; rw [h]
    · unfold v0SaveContent; rw [h]
    · unfold v0Read; rw [h]
    · unfold v0Close; rw [h]
  · intro c s e s1 h1 h2
    unfold v0Json
    rw [h1, h2]

/-- The `part_000` response used for the C2 and C9 witnesses: status 250,
unknown length, a failing stream. -/
def c2WitState : V0State :=
  v0NewResponseOk 250 [] (-1) { data := [], readErr := some .readFail, closed := false }

/-- The state after the failed materialization of `c2WitState`. -/
def c2WitState1 : V0State :=
  { c2WitState with body := { data := [], readErr := some .readFail, closed := true },
                    reads := 1 }

/-- C2 witness: concrete instances for every hypothesis of `c2_amended`. -/
theorem c2_witness :
    v0Content strictCodec (v0NewResponseErr .transport) =
      (.err .transport, v0NewResponseErr .transport) ∧
    v0Json strictCodec c2WitState =
      (.err .readFail, { c2WitState1 with internalError := some .readFail }) :=
  ⟨(c2_amended.1 .transport strictCodec 0 true (v0NewResponseErr .transport) rfl).2.1,
   c2_amended.2 strictCodec c2WitState .readFail c2WitState1 rfl (by decide)⟩

/-- C3 (code bug): when the gzip/deflate decompressor constructor fails
(body bytes that are not a valid gzip/zlib stream), the deferred
`reader.Close()` runs with a nil reader: `loadContent` panics in both
variants instead of returning the setup error with resources released. -/
theorem c3_setup_failure_panics :
    (v1LoadContent strictCodec (mkV1 200 [("Content-Encoding", "gzip")] [1, 2, 3])).1
        = .panicked ∧
    (v1LoadContent strictCodec (mkV1 200 [("Content-Encoding", "deflate")] [1, 2, 3])).1
        = .panicked ∧
    (v0LoadContent strictCodec
        (v0NewResponseOk 200 [("Content-Encoding", "gzip")] 3 (mkBody [1, 2, 3]))).1
        = .panicked := by
  decide

/-- The `response.go` response used for the C4 theorem: content already
materialized to three bytes. -/
def c4State : V1State := { mkV1 200 [] [] with content := some [1, 2, 3] }

/-- C4 (code bug): `Close` of `response.go` never terminates once the
materialized content is nonempty: every `Read` call inside
`io.Copy(ioutil.Discard, r)` builds a **fresh** `bytes.Reader` over the full
cached content, returns `n > 0` with a nil error and leaves the state
unchanged, so the copy loop never reaches end-of-stream — for every fuel
bound the loop fails to finish. -/
theorem c4_close_never_terminates :
    ∀ fuel : Nat, v1Close strictCodec fuel c4State = none := by
  have hstep : ∀ n : Nat,
      v1Drain strictCodec (n + 1) c4State = v1Drain strictCodec n c4State := fun _ => rfl
  have hd : ∀ fuel : Nat, v1Drain strictCodec fuel c4State = none := by
    intro fuel
    induction fuel with
    | zero => rfl
    | succ n ih => rw [hstep n]; exact ih
  intro fuel
  unfold v1Close
  rw [hd fuel]

/-- The `part_000` response used for the C5 counterexample: a zero-length
body (`ContentLength` 0) with a declared encoding. -/
def c5CexState : V0State :=
  v0NewResponseOk 200 [("Content-Encoding", "gzip")] 0 (mkBody [])

/-- C5 counterexample: in `part_000`, a zero-length body yields
`Content() == (nil, nil)` — a Go nil (absent) slice with no error — not an
empty buffer. -/
theorem c5_counterexample :
    v0Content strictCodec c5CexState = (.ok none, c5CexState) := by decide

/-- C5 (amended): in `response.go` an empty body whose declared encoding is
not `gzip`/`deflate` materializes to the empty — never nil — byte buffer
with no error (with a declared `gzip`/`deflate` encoding the empty stream
instead makes the decompressor constructor fail); in `part_000`, `Content()`
on an empty body returns a nil buffer and no error. -/
theorem c5_amended :
    (∀ (c : Codec) (s : V1State),
        s.content = none → s.body = mkBody [] →
        headerGet s.header "Content-Encoding" ≠ "gzip" →
        headerGet s.header "Content-Encoding" ≠ "deflate" →
        (v1Content c s).1 = .ok (some [])) ∧
    (∀ (c : Codec) (s : V0State),
        s.internalError = none → s.content = [] → s.contentLength = 0 →
        v0Content c s = (.ok none, s)) := by
  constructor
  · intro c s hc hb h1 h2
    unfold v1Content v1LoadContent
    rw [hc, hb]
    simp [h1, h2, Body.readAll, mkBody]
  · intro c s hie hc hcl
    unfold v0Content
    rw [v0LoadContent_of_zeroCL c s hie hcl]
    simp [hc]

/-- C5 witness: concrete instances for every hypothesis of `c5_amended`. -/
theorem c5_witness :
    (v1Content strictCodec (mkV1 200 [] [])).1 = .ok (some []) ∧
    v0Content strictCodec (v0NewResponseOk 200 [] 0 (mkBody [])) =
      (.ok none, v0NewResponseOk 200 [] 0 (mkBody [])) :=
  ⟨c5_amended.1 strictCodec (mkV1 200 [] []) rfl rfl (by decide) (by decide),
   c5_amended.2 strictCodec (v0NewResponseOk 200 [] 0 (mkBody [])) rfl rfl rfl⟩

/-- The `response.go` response used for the C6 counterexample, uppercase
encoding value. -/
def c6CexUpper : V1State := mkV1 200 [("Content-Encoding", "GZIP")] [1, 2, 3]

/-- The same response with the lowercase encoding value. -/
def c6CexLower : V1State := mkV1 200 [("Content-Encoding", "gzip")] [1, 2, 3]

/-- C6 counterexample: the header-**value** match is case-sensitive, not
case-insensitive as claimed: `Content-Encoding: GZIP` falls through to the
identity branch (raw bytes returned unchanged), while the identical response
with the lowercase value `gzip` takes the gzip branch (here: panics on the
failed constructor).  A case-insensitive exact match would treat the two
alike. -/
theorem c6_counterexample :
    (v1LoadContent strictCodec c6CexUpper).1 = .ok [1, 2, 3] ∧
    (v1LoadContent strictCodec c6CexLower).1 = .panicked := by decide

/-- C6 (amended): materialization dispatches on
`Header.Get("Content-Encoding")` — the header *name* lookup is
case-insensitive — matching the *value* case-sensitively against the fixed
three-way table: exactly `"gzip"` selects the gzip reader, exactly
`"deflate"` the zlib reader, and any other value (other casings included) or
an absent header uses the raw stream unchanged, byte-for-byte. -/
theorem c6_amended :
    (∀ (hs : List (String × String)) (k1 k2 : String),
        strCaseEq k1 k2 = true → headerGet hs k1 = headerGet hs k2) ∧
    (∀ (c : Codec) (s : V1State),
        s.content = none → s.body.closed = false → s.body.readErr = none →
        headerGet s.header "Content-Encoding" ≠ "gzip" →
        headerGet s.header "Content-Encoding" ≠ "deflate" →
        (v1LoadContent c s).1 = .ok s.body.data ∧
        (v1LoadContent c s).2.content = some s.body.data) ∧
    (∀ (c : Codec) (s : V1State) (bs : List Nat),
        s.content = none → s.body.closed = false → s.body.readErr = none →
        headerGet s.header "Content-Encoding" = "gzip" →
        c.gzip s.body.data = .ok bs → (v1LoadContent c s).1 = .ok bs) ∧
    (∀ (c : Codec) (s : V1State) (bs : List Nat),
        s.content = none → s.body.closed = false → s.body.readErr = none →
        headerGet s.header "Content-Encoding" = "deflate" →
        c.zlib s.body.data = .ok bs → (v1LoadContent c s).1 = .ok bs) := by
  refine ⟨?_, ?_, ?_, ?_⟩
  · intro hs k1 k2 h
    have h2 : k1.data.map charLower = k2.data.map charLower := of_decide_eq_true h
    unfold headerGet strCaseEq
    simp only [h2]
  · intro c s hc hcl hre h1 h2
    unfold v1LoadContent
    rw [hc]
    simp [h1, h2, Body.readAll, hcl, hre]
  · intro c s bs hc hcl hre hg hgz
    unfold v1LoadContent
    rw [hc]
    simp [hg, Body.readAll, hcl, hre, hgz]
  · intro c s bs hc hcl hre hd hgz
    unfold v1LoadContent
    rw [hc]
    simp [hd, Body.readAll, hcl, hre, hgz]

/-- A codec that gzip-decodes `[9, 9]` to `[1, 2, 3]`. -/
def c6GzCodec : Codec :=
  { gzip := fun bs => if bs = [9, 9] then .ok [1, 2, 3] else .setupFail,
    zlib := fun _ => .setupFail, isJson := fun _ => false }

/-- A codec that zlib-decodes `[9, 9]` to `[1, 2, 3]`. -/
def c6DeflCodec : Codec :=
  { gzip := fun _ => .setupFail,
    zlib := fun bs => if bs = [9, 9] then .ok [1, 2, 3] else .setupFail,
    isJson := fun _ => false }

/-- C6 witness: concrete instances for every hypothesis of `c6_amended`. -/
theorem c6_witness :
    headerGet [("content-encoding", "deflate")] "Content-Encoding" =
      headerGet [("content-encoding", "deflate")] "content-encoding" ∧
    (v1LoadContent strictCodec (mkV1 200 [] [4, 5])).1 = .ok [4, 5] ∧
    (v1LoadContent c6GzCodec (mkV1 200 [("Content-Encoding", "gzip")] [9, 9])).1 =
      .ok [1, 2, 3] ∧
    (v1LoadContent c6DeflCodec (mkV1 200 [("Content-Encoding", "deflate")] [9, 9])).1 =
      .ok [1, 2, 3] :=
  ⟨c6_amended.1 _ "Content-Encoding" "content-encoding" (by decide),
   (c6_amended.2.1 strictCodec (mkV1 200 [] [4, 5]) rfl rfl rfl (by decide) (by decide)).1,
   c6_amended.2.2.1 c6GzCodec _ [1, 2, 3] rfl rfl rfl (by decide) (by decide),
   c6_amended.2.2.2 c6DeflCodec _ [1, 2, 3] rfl rfl rfl (by decide) (by decide)⟩

/-- A codec that gzip-decodes the compressed bytes `[9, 9]` to the plaintext
`[1, 2, 3]`, used for C7. -/
def c7Codec : Codec :=
  { gzip := fun bs => if bs = [9, 9] then .ok [1, 2, 3] else .setupFail,
    zlib := fun _ => .setupFail, isJson := fun _ => false }

/-- The `part_000` response used for the C7 counterexample: a gzip-encoded
body whose raw (compressed) bytes are `[9, 9]`. -/
def c7CexState : V0State :=
  v0NewResponseOk 200 [("Content-Encoding", "gzip")] 2 (mkBody [9, 9])

/-- C7 counterexample: in `part_000`, `SaveContent` called before
materialization copies the **raw** stream into the file: for the
gzip-encoded body the file receives the still-compressed bytes `[9, 9]`,
while `Content()` on the same (fresh) object decodes them to `[1, 2, 3]`;
and once the save has consumed the stream, `Content()` on the object cannot
return those bytes at all (here it panics on the closed stream). -/
theorem c7_counterexample :
    (v0SaveContent true c7CexState).1 = .ok () ∧
    (v0SaveContent true c7CexState).2.2 = some [9, 9] ∧
    (v0Content c7Codec c7CexState).1 = .ok (some [1, 2, 3]) ∧
    (v0Content c7Codec (v0SaveContent true c7CexState).2.1).1 = .panicked := by
  decide

/-- C7 (amended): in `response.go`, a successful `SaveContent` writes to the
destination file exactly the decoded payload that `Content()` returns for
the same object (gzip/deflate bodies included).  In `part_000`,
`SaveContent` copies `getContent()`: with an empty cache this is the live
raw stream — the file receives the possibly still-compressed bytes — and
with a nonempty cache the cached bytes are written but drained from the
buffer. -/
theorem c7_amended :
    (∀ (c : Codec) (s : V1State) (bs : List Nat) (s1 : V1State),
        v1LoadContent c s = (.ok bs, s1) →
        v1SaveContent c true true s = (.ok (), s1, some bs) ∧
        v1Content c s = (.ok (some bs), s1)) ∧
    (∀ s : V0State, s.internalError = none → s.content = [] →
        s.body.closed = false → s.body.readErr = none →
        (v0SaveContent true s).2.2 = some s.body.data) ∧
    (∀ s : V0State, s.internalError = none → s.content.length ≠ 0 →
        (v0SaveContent true s).2.2 = some s.content ∧
        (v0SaveContent true s).2.1.content = []) := by
  refine ⟨?_, ?_, ?_⟩
  · intro c s bs s1 h
    constructor
    · unfold v1SaveContent
      simp [h]
    · unfold v1Content
      rw [h]
  · intro s hie hc hcl hre
    unfold v0SaveContent
    rw [hie]
    simp [hc, Body.readAll, hcl, hre]
  · intro s hie hc
    unfold v0SaveContent
    rw [hie]
    simp [hc]

/-- C7 witness: concrete instances for every hypothesis of `c7_amended`;
the gzip case shows the file receiving the decoded payload in
`response.go`. -/
theorem c7_witness :
    v1SaveContent c7Codec true true (mkV1 200 [("Content-Encoding", "gzip")] [9, 9]) =
      (.ok (), { mkV1 200 [("Content-Encoding", "gzip")] [9, 9] with
                   body := { data := [], readErr := none, closed := false },
                   content := some [1, 2, 3], reads := 1 }, some [1, 2, 3]) ∧
    (v0SaveContent true c7CexState).2.2 = some [9, 9] ∧
    (v0SaveContent true { c7CexState with content := [1, 2, 3] }).2.2 =
      some [1, 2, 3] := by
  refine ⟨?_, ?_, ?_⟩
  · exact (c7_amended.1 c7Codec _ [1, 2, 3] _ (by decide)).1
  · exact c7_amended.2.1 c7CexState rfl rfl rfl rfl
  · exact (c7_amended.2.2 { c7CexState with content := [1, 2, 3] } rfl (by decide)).1

/-- C8: a JSON parse failure — `Err.parse`, distinct from the transport and
compression errors — does not disturb the cached bytes: in both variants a
subsequent `Content()` on the same object still succeeds with the identical
cached bytes, and in `part_000` the parse failure is not recorded into
`internalError`. -/
theorem c8_parse_error_does_not_poison :
    (∀ (c : Codec) (s : V1State) (bs : List Nat) (s1 : V1State),
        v1LoadContent c s = (.ok bs, s1) → c.isJson bs = false →
        v1SimpleJSON c s = (.err .parse, s1) ∧
        v1Content c s1 = (.ok (some bs), s1)) ∧
    (∀ (c : Codec) (s : V0State) (bs : List Nat) (s1 : V0State),
        s.internalError = none → v0Content c s = (.ok (some bs), s1) →
        c.isJson bs = false →
        v0Json c s = (.err .parse, s1) ∧ s1.internalError = none ∧
        v0Content c s1 = (.ok (some bs), s1)) ∧
    Err.parse ≠ Err.readFail ∧ Err.parse ≠ Err.readClosed := by
  refine ⟨?_, ?_, by decide, by decide⟩
  · intro c s bs s1 h hj
    constructor
    · unfold v1SimpleJSON
      rw [h]
      simp [hj]
    · unfold v1Content
      rw [v1LoadContent_idem c s bs s1 h]
  · intro c s bs s1 hie h hj
    obtain ⟨hc, hlen, hie1⟩ := v0Content_ok_some c s bs s1 h
    rw [hie] at hie1
    refine ⟨?_, hie1, ?_⟩
    · unfold v0Json
      rw [hie, h]
      simp [hj]
    · have hcc := v0Content_of_cached c s1 hie1 hlen
      rw [hc] at hcc
      exact hcc

/-- The `response.go` state after materializing the non-JSON body `[5, 6]`. -/
def c8V1After : V1State :=
  { mkV1 200 [] [5, 6] with body := { data := [], readErr := none, closed := true },
                            content := some [5, 6], reads := 1 }

/-- The `part_000` response with the non-JSON body `[5, 6]`. -/
def c8V0Start : V0State := v0NewResponseOk 200 [] 2 (mkBody [5, 6])

/-- The `part_000` state after materializing the non-JSON body `[5, 6]`. -/
def c8V0After : V0State :=
  { c8V0Start with content := [5, 6],
                   body := { data := [], readErr := none, closed := true }, reads := 1 }

/-- C8 witness: concrete instances for every hypothesis of
`c8_parse_error_does_not_poison`. -/
theorem c8_witness :
    v1SimpleJSON strictCodec (mkV1 200 [] [5, 6]) = (.err .parse, c8V1After) ∧
    v0Json strictCodec c8V0Start = (.err .parse, c8V0After) :=
  ⟨(c8_parse_error_does_not_poison.1 strictCodec (mkV1 200 [] [5, 6]) [5, 6] c8V1After
      (by decide) rfl).1,
   (c8_parse_error_does_not_poison.2.1 strictCodec c8V0Start [5, 6] c8V0After rfl
      (by decide) rfl).1⟩

/-- The `part_000` response used for the C9 counterexample: status 250 with
a failing stream, on which `Json()` records an internal error. -/
def c9Start : V0State :=
  v0NewResponseOk 250 [] (-1) { data := [], readErr := some .readFail, closed := false }

/-- C9 counterexample: a `part_000` response whose `Json()` call failed has
`internalError` set; its status code is 250 ∈ [200, 400) and yet `Ok()`
returns `false`, refuting the claimed status-only "iff". -/
theorem c9_counterexample :
    v0Ok (v0Json strictCodec c9Start).2 = false ∧
    (v0Json strictCodec c9Start).2.statusCode = 250 := by decide

/-- C9 (amended): `Ok` is a pure predicate of the stored state (it takes
nothing but the state and returns a boolean: no I/O, no materialization, no
state change).  In `response.go` it is true iff the status code is in
[200, 400), with the claimed boundary values; in `part_000` it additionally
requires that no internal error is recorded. -/
theorem c9_amended :
    (∀ s : V1State, v1Ok s = true ↔ 200 ≤ s.statusCode ∧ s.statusCode < 400) ∧
    (∀ s : V0State,
        v0Ok s = true ↔ s.internalError = none ∧ 200 ≤ s.statusCode ∧ s.statusCode < 400) ∧
    v1Ok (mkV1 199 [] []) = false ∧ v1Ok (mkV1 200 [] []) = true ∧
    v1Ok (mkV1 399 [] []) = true ∧ v1Ok (mkV1 400 [] []) = false ∧
    v1Ok (mkV1 500 [] []) = false := by
  refine ⟨?_, ?_, by decide, by decide, by decide, by decide, by decide⟩
  · intro s
    unfold v1Ok
    simp only [Bool.and_eq_true, decide_eq_true_eq]
    constructor
    · rintro ⟨h1, h2⟩; exact ⟨h2, h1⟩
    · rintro ⟨h1, h2⟩; exact ⟨h2, h1⟩
  · intro s
    cases hie : s.internalError with
    | some e => simp [v0Ok, hie]
    | none =>
      simp only [v0Ok, hie, Bool.and_eq_true, decide_eq_true_eq, true_and]
      constructor
      · rintro ⟨h1, h2⟩; exact ⟨h2, h1⟩
      · rintro ⟨h1, h2⟩; exact ⟨h2, h1⟩

/-- C10: a `part_000` response constructed from a transport error records it
in `internalError` at construction; `Ok()` is false for it — and stays false
for any state carrying an internal error even with status 250 ∈ [200, 400) —
and `Read`, `Close`, `Text`, `Content`, `Json` and `SaveContent` all return
the recorded error with no I/O and no state change. -/
theorem c10_construction_error_propagates :
    ∀ (e : Err) (c : Codec) (n : Nat) (ck : Bool),
      (v0NewResponseErr e).internalError = some e ∧
      v0Ok (v0NewResponseErr e) = false ∧
      v0Ok { v0NewResponseOk 250 [] 0 (mkBody []) with internalError := some e } = false ∧
      v0Read n (v0NewResponseErr e) = ((-1, some e), v0NewResponseErr e) ∧
      v0Close (v0NewResponseErr e) = (some e, v0NewResponseErr e) ∧
      v0Text c (v0NewResponseErr e) = (.err e, v0NewResponseErr e) ∧
      v0Content c (v0NewResponseErr e) = (.err e, v0NewResponseErr e) ∧
      v0Json c (v0NewResponseErr e) = (.err e, v0NewResponseErr e) ∧
      v0SaveContent ck (v0NewResponseErr e) = (.err e, v0NewResponseErr e, none) := by
  intro e c n ck
  exact ⟨rfl, rfl, rfl, rfl, rfl, rfl, rfl, rfl, rfl⟩
